import Mathlib

/-!
# Plugin RPC subsystem (plugin/v7): shallow embedding and verified properties

The development embeds

* `plugin/v7/rpc/cli_rpc_command.go` : the host side RPC service `CliRpcCmd`,
* `plugin/v7/cli_connection.go`      : the plugin side connection object,

as pure Lean functions.  Collaborators that the Go code reaches through an
interface or an imported package (`command.Config`, `PluginActor`, the gob
encoder and decoder, the command parser, the semantic version parser, the
network dialer) are parameters of the embedded functions.  Side effects are
made explicit: every embedded method returns, next to its Go return value,
the final content of the cell behind its result pointer and the list of
collaborator calls it performed.
-/

namespace CliPlugin

/-! ## Outcome of a call -/

/-- Outcome of one RPC method: `ok` is a nil error, `error` is a returned
error value, `panic` is a Go panic raised inside the method. -/
inductive Status where
  | ok : Status
  | error (msg : String) : Status
  | panic (msg : String) : Status
  deriving DecidableEq, Repr

/-! ## Version Gate -/

/-- Pre-release identifier of a semantic version (`semver.PRVersion`). -/
structure PRVersion where
  VersionStr : String
  VersionNum : Nat
  IsNum : Bool
  deriving DecidableEq, Repr

/-- Parsed semantic version (`semver.Version`). -/
structure Version where
  Major : Nat
  Minor : Nat
  Patch : Nat
  Pre : List PRVersion
  Build : List String
  deriving DecidableEq, Repr

/-- Modelled from the spec: the semantic version library behind
`semver.Make` and `Version.GTE` is not under src/.  Three-way comparison of
two pre-release identifiers: a numeric identifier is below an alphanumeric
one, two numeric ones compare by value, two alphanumeric ones compare as
strings. -/
def PRVersion.Compare (v o : PRVersion) : Int :=
  if v.IsNum && !o.IsNum then -1
  else if !v.IsNum && o.IsNum then 1
  else if v.IsNum && o.IsNum then
    if v.VersionNum = o.VersionNum then 0
    else if v.VersionNum > o.VersionNum then 1
    else -1
  else
    if v.VersionStr = o.VersionStr then 0
    else if v.VersionStr > o.VersionStr then 1
    else -1

/-- Modelled from the spec: the semantic version library is not under src/.
Identifier by identifier comparison of two pre-release lists; when one list
is an initial segment of the other the longer one is the greater. -/
def comparePre : List PRVersion → List PRVersion → Int
  | [], [] => 0
  | [], _ :: _ => -1
  | _ :: _, [] => 1
  | a :: as, b :: bs =>
    let comp := a.Compare b
    if comp = 0 then comparePre as bs
    else if comp = 1 then 1
    else -1

/-- Modelled from the spec: the semantic version library is not under src/.
Three-way comparison of two versions: major, minor and patch numerically,
then pre-release precedence (a version without pre-release is above the same
version with one).  Build metadata takes no part. -/
def Version.Compare (v o : Version) : Int :=
  if v.Major ≠ o.Major then
    if v.Major > o.Major then 1 else -1
  else if v.Minor ≠ o.Minor then
    if v.Minor > o.Minor then 1 else -1
  else if v.Patch ≠ o.Patch then
    if v.Patch > o.Patch then 1 else -1
  else if v.Pre.length = 0 ∧ o.Pre.length = 0 then 0
  else if v.Pre.length = 0 ∧ o.Pre.length > 0 then 1
  else if v.Pre.length > 0 ∧ o.Pre.length = 0 then -1
  else comparePre v.Pre o.Pre

/-- Modelled from the spec: the semantic version library is not under src/.
`v.GTE(o)`: `v` is greater than or equal to `o`. -/
def Version.GTE (v o : Version) : Bool :=
  decide (v.Compare o ≥ 0)

/-- The `version` package as seen by the RPC service: the build version string
of the host (`version.VersionString()`) and the development sentinel
(`version.DefaultVersion`).  Neither is under src/, both are parameters. -/
structure VersionPkg where
  VersionString : String
  DefaultVersion : String
  deriving DecidableEq, Repr

/-- Result of `IsMinCliVersion`: the returned error (`none` is nil), the
content of `*retVal` after the call, and the strings handed to `semver.Make`,
in call order. -/
structure VersionReply where
  err : Option String
  retVal : Bool
  parsed : List String
  deriving DecidableEq, Repr

/-- `CliRpcCmd.IsMinCliVersion`.  `Make` is `semver.Make`; `retVal` is the
content of the result cell before the call. -/
def IsMinCliVersion (version : VersionPkg) (Make : String → Except String Version)
    (passedVersion : String) (retVal : Bool) : VersionReply :=
  if version.VersionString = version.DefaultVersion then
    { err := none, retVal := true, parsed := [] }
  else
    match Make version.VersionString with
    | .error err => { err := some err, retVal := retVal, parsed := [version.VersionString] }
    | .ok actualVersion =>
      match Make passedVersion with
      | .error err =>
        { err := some err, retVal := retVal, parsed := [version.VersionString, passedVersion] }
      | .ok requiredVersion =>
        { err := none, retVal := actualVersion.GTE requiredVersion,
          parsed := [version.VersionString, passedVersion] }

/-! ### Semantic version ordering, as the specification words it -/

/-- Specification ordering of pre-release identifiers: a numeric identifier
has lower precedence than an alphanumeric one, numeric identifiers are
ordered by value, alphanumeric ones by string order. -/
def PRVersion.precedes (a b : PRVersion) : Prop :=
  (a.IsNum = true ∧ b.IsNum = false) ∨
  (a.IsNum = true ∧ b.IsNum = true ∧ a.VersionNum < b.VersionNum) ∨
  (a.IsNum = false ∧ b.IsNum = false ∧ a.VersionStr < b.VersionStr)

/-- Two pre-release identifiers of equal precedence. -/
def PRVersion.same (a b : PRVersion) : Prop :=
  (a.IsNum = true ∧ b.IsNum = true ∧ a.VersionNum = b.VersionNum) ∨
  (a.IsNum = false ∧ b.IsNum = false ∧ a.VersionStr = b.VersionStr)

instance (a b : PRVersion) : Decidable (a.precedes b) := by
  unfold PRVersion.precedes; infer_instance

instance (a b : PRVersion) : Decidable (a.same b) := by
  unfold PRVersion.same; infer_instance

/-- Specification ordering of pre-release lists: the first differing
identifier decides; if all shared identifiers are equal the shorter list has
lower precedence. -/
def preBelow : List PRVersion → List PRVersion → Prop
  | [], [] => False
  | [], _ :: _ => True
  | _ :: _, [] => False
  | a :: as, b :: bs => a.precedes b ∨ (a.same b ∧ preBelow as bs)

/-- Pre-release lists of equal precedence. -/
def preSame : List PRVersion → List PRVersion → Prop
  | [], [] => True
  | [], _ :: _ => False
  | _ :: _, [] => False
  | a :: as, b :: bs => a.same b ∧ preSame as bs

instance preBelowDecidable : (p q : List PRVersion) → Decidable (preBelow p q)
  | [], [] => isFalse (by simp [preBelow])
  | [], _ :: _ => isTrue (by simp [preBelow])
  | _ :: _, [] => isFalse (by simp [preBelow])
  | a :: as, b :: bs =>
    have := preBelowDecidable as bs
    decidable_of_iff (a.precedes b ∨ (a.same b ∧ preBelow as bs)) (by simp [preBelow])

instance preSameDecidable : (p q : List PRVersion) → Decidable (preSame p q)
  | [], [] => isTrue (by simp [preSame])
  | [], _ :: _ => isFalse (by simp [preSame])
  | _ :: _, [] => isFalse (by simp [preSame])
  | a :: as, b :: bs =>
    have := preSameDecidable as bs
    decidable_of_iff (a.same b ∧ preSame as bs) (by simp [preSame])

/-- Pre-release part of the specification ordering: a version carrying a
pre-release has lower precedence than the same version without one; two
pre-releases are ordered by `preBelow`. -/
def preReleaseBelow (p q : List PRVersion) : Prop :=
  (p ≠ [] ∧ q = []) ∨ (p ≠ [] ∧ q ≠ [] ∧ preBelow p q)

/-- Specification ordering `a < b` of semantic versions: major, minor and
patch compared numerically in that order, then pre-release precedence. -/
def Version.precedes (a b : Version) : Prop :=
  a.Major < b.Major ∨ (a.Major = b.Major ∧
    (a.Minor < b.Minor ∨ (a.Minor = b.Minor ∧
      (a.Patch < b.Patch ∨ (a.Patch = b.Patch ∧ preReleaseBelow a.Pre b.Pre)))))

/-- Versions of equal precedence: same major, minor, patch and pre-release
(build metadata is ignored). -/
def Version.same (a b : Version) : Prop :=
  a.Major = b.Major ∧ a.Minor = b.Minor ∧ a.Patch = b.Patch ∧ preSame a.Pre b.Pre

/-- Specification `a ≥ b` of semantic versions: `b` has lower or equal
precedence. -/
def Version.atLeast (a b : Version) : Prop :=
  b.precedes a ∨ b.same a

instance (p q : List PRVersion) : Decidable (preReleaseBelow p q) := by
  unfold preReleaseBelow; infer_instance

instance (a b : Version) : Decidable (a.precedes b) := by
  unfold Version.precedes; infer_instance

instance (a b : Version) : Decidable (a.same b) := by
  unfold Version.same; infer_instance

instance (a b : Version) : Decidable (a.atLeast b) := by
  unfold Version.atLeast; infer_instance

/-! ### A concrete parser for the examples -/

/-- Splits a character list at every occurrence of `sep` (`strings.Split`). -/
def splitOnChar (sep : Char) : List Char → List (List Char)
  | [] => [[]]
  | c :: cs =>
    if c = sep then [] :: splitOnChar sep cs
    else
      match splitOnChar sep cs with
      | [] => [[c]]
      | h :: t => (c :: h) :: t

/-- Cuts a character list at the first occurrence of `sep`: the part before
it and, when `sep` occurs, the part after it. -/
def cutAt (sep : Char) : List Char → List Char × Option (List Char)
  | [] => ([], none)
  | c :: cs =>
    if c = sep then ([], some cs)
    else ((c :: (cutAt sep cs).1), (cutAt sep cs).2)

def numbers : List Char := "0123456789".toList

def alphanum : List Char :=
  "abcdefghijklmnopqrstuvwxyzABCDEFGHIJKLMNOPQRSTUVWXYZ-0123456789".toList

def containsOnly (s set : List Char) : Bool := s.all (fun r => set.contains r)

def hasLeadingZeroes (s : List Char) : Bool := decide (s.length > 1) && s.head? == some '0'

/-- Decimal value of a digit string that fits 64 bits (`strconv.ParseUint`). -/
def parseUint (s : List Char) : Except String Nat :=
  if s = [] then .error "invalid syntax"
  else
    let n := s.foldl (fun acc c => acc * 10 + (c.toNat - 48)) 0
    if n < 2 ^ 64 then .ok n else .error "value out of range"

/-- One numeric component of the version core. -/
def parseNumber (what : String) (s : List Char) : Except String Nat :=
  if !containsOnly s numbers then .error ("Invalid character(s) found in " ++ what ++ " number")
  else if hasLeadingZeroes s then .error (what ++ " number must not contain leading zeroes")
  else parseUint s

/-- One pre-release identifier (`semver.NewPRVersion`). -/
def NewPRVersion (s : List Char) : Except String PRVersion :=
  if s.length = 0 then .error "Prerelease is empty"
  else if containsOnly s numbers then
    if hasLeadingZeroes s then .error "Numeric PreRelease version must not contain leading zeroes"
    else
      match parseUint s with
      | .error e => .error e
      | .ok num => .ok { VersionStr := "", VersionNum := num, IsNum := true }
  else if containsOnly s alphanum then
    .ok { VersionStr := String.mk s, VersionNum := 0, IsNum := false }
  else .error "Invalid character(s) found in prerelease"

/-- One build metadata identifier. -/
def parseBuild (s : List Char) : Except String String :=
  if s.length = 0 then .error "Build meta data is empty"
  else if !containsOnly s alphanum then .error "Invalid character(s) found in build meta data"
  else .ok (String.mk s)

/-- Modelled from the spec: the semantic version parser `semver.Make` is not
under src/.  Accepts `MAJOR.MINOR.PATCH[-PRERELEASE][+BUILD]` with numeric
components free of leading zeroes and dot separated identifier lists.  The
theorems below hold for every parser; this one instantiates them in the
examples. -/
def semverMake (str : String) : Except String Version :=
  let s := str.toList
  if s.length = 0 then .error "Version string empty"
  else
    match cutAt '.' s with
    | (_, none) => .error "No Major.Minor.Patch elements found"
    | (p0, some rest) =>
      match cutAt '.' rest with
      | (_, none) => .error "No Major.Minor.Patch elements found"
      | (p1, some p2) =>
        match parseNumber "Major" p0 with
        | .error e => .error e
        | .ok major =>
          match parseNumber "Minor" p1 with
          | .error e => .error e
          | .ok minor =>
            let build := match (cutAt '+' p2).2 with
              | none => []
              | some b => splitOnChar '.' b
            let patchStr := (cutAt '+' p2).1
            let prerelease := match (cutAt '-' patchStr).2 with
              | none => []
              | some b => splitOnChar '.' b
            let patchStr := (cutAt '-' patchStr).1
            match parseNumber "Patch" patchStr with
            | .error e => .error e
            | .ok patch =>
              match prerelease.mapM NewPRVersion with
              | .error e => .error e
              | .ok pre =>
                match build.mapM parseBuild with
                | .error e => .error e
                | .ok bld =>
                  .ok { Major := major, Minor := minor, Patch := patch, Pre := pre, Build := bld }

/-! ## Plugin Contract (`plugin/v7/plugin.go`) -/

structure VersionType where
  Major : Int
  Minor : Int
  Build : Int
  deriving DecidableEq, Repr

set_option linter.dupNamespace false in
/-- Usage of a command; `Options` is the Go map from flag name to
description, kept as an association list. -/
structure Usage where
  Usage : String
  Options : List (String × String)
  deriving DecidableEq, Repr

structure Command where
  Name : String
  Alias : String
  HelpText : String
  UsageDetails : Usage
  deriving DecidableEq, Repr

structure PluginMetadata where
  Name : String
  Version : VersionType
  LibraryVersion : VersionType
  MinCliVersion : VersionType
  Commands : List Command
  deriving DecidableEq, Repr

/-! ## Collaborators of the RPC Service -/

abbrev Bytes := List UInt8

abbrev Warnings := List String

/-- Targeted organization as `command.Config` reports it (the fields the
service reads). -/
structure ConfigOrganization where
  GUID : String
  Name : String
  deriving DecidableEq, Repr

/-- Targeted space as `command.Config` reports it (the fields the service
reads). -/
structure ConfigSpace where
  GUID : String
  Name : String
  deriving DecidableEq, Repr

/-- The methods of the `command.Config` interface that the service calls; each
field is what the method returns. -/
structure Config where
  Target : String
  HasTargetedOrganization : Bool
  TargetedOrganization : ConfigOrganization
  TargetedSpace : ConfigSpace
  AccessToken : String
  SkipSSLValidation : Bool
  CurrentUserName : String × Option String
  deriving DecidableEq, Repr

/-- Organization returned by the actor (the fields the service reads); `M` is
the type of its metadata. -/
structure Organization (M : Type) where
  GUID : String
  Name : String
  Metadata : M
  deriving DecidableEq, Repr

/-- Space returned by the actor (the fields the service reads). -/
structure Space where
  GUID : String
  Name : String
  deriving DecidableEq, Repr

/-- Domain returned by the actor (the fields the service reads). -/
structure Domain where
  GUID : String
  Name : String
  deriving DecidableEq, Repr

/-- The `PluginActor` interface.  Every method returns its value, its warnings
and its error (`none` is nil), as in Go.  `AppSummary`, `App` and `M` are the
actor side types of a detailed application summary, an application and
organization metadata, none of which is under src/. -/
structure PluginActor (AppSummary App M : Type) where
  GetDetailedAppSummary : String → String → Bool → AppSummary × Warnings × Option String
  GetApplicationsBySpace : String → List App × Warnings × Option String
  GetSpaceByNameAndOrganization : String → String → Space × Warnings × Option String
  GetOrganizationByName : String → Organization M × Warnings × Option String
  GetOrganizationSpaces : String → List Space × Warnings × Option String
  GetOrganizationDomains : String → String → List Domain × Warnings × Option String
  RefreshAccessToken : String × Option String

/-- One invocation of a `PluginActor` method, with its arguments. -/
inductive ActorCall where
  | GetDetailedAppSummary (appName spaceGUID : String) (withObfuscatedValues : Bool)
  | GetApplicationsBySpace (spaceGUID : String)
  | GetSpaceByNameAndOrganization (spaceName orgGUID : String)
  | GetOrganizationByName (orgName : String)
  | GetOrganizationSpaces (orgGUID : String)
  | GetOrganizationDomains (orgGUID labelSelector : String)
  | RefreshAccessToken
  deriving DecidableEq, Repr

/-- The gob encoder and decoder over a fresh buffer, for a source type `α` and
a destination type `β`.  `Encode v` gives the bytes written to the buffer and
the error; `Decode b dst` reads the buffer into the cell holding `dst` and
gives the new content of the cell and the error. -/
structure Gob (α β : Type) where
  Encode : α → Bytes × Option String
  Decode : Bytes → β → β × Option String

namespace PluginModels

/-- `plugin_models.Space` as the service builds it. -/
structure Space where
  GUID : String
  Name : String
  deriving DecidableEq, Repr

/-- `plugin_models.Domain` as the service builds it. -/
structure Domain where
  GUID : String
  Name : String
  deriving DecidableEq, Repr

/-- `plugin_models.OrgSummary` (the fields the service writes); `PM` is
`plugin_models.Metadata`. -/
structure OrgSummary (PM : Type) where
  Name : String
  GUID : String
  Metadata : PM
  Spaces : List Space
  Domains : List Domain
  deriving DecidableEq, Repr

end PluginModels

/-! ## RPC Service (`plugin/v7/rpc/cli_rpc_command.go`) -/

/-- Handle of the lock guarding the Shared Metadata Slot.  The service is
built with a lock: the nil pointer is not a value of this type. -/
structure RWMutex where
  addr : Nat
  deriving DecidableEq, Repr

/-- The service object.  `PluginMetadata` is the Shared Metadata Slot (`none`
is the nil pointer).  The output collaborators are interface values whose
types are parameters. -/
structure CliRpcCmd (AppSummary App M OutputCapture TerminalOutputSwitch Writer : Type) where
  PluginMetadata : Option PluginMetadata
  MetadataMutex : RWMutex
  Config : Config
  PluginActor : PluginActor AppSummary App M
  outputCapture : OutputCapture
  terminalOutputSwitch : TerminalOutputSwitch
  outputBucket : Bytes
  stdout : Writer

/-- What a data-returning RPC method leaves behind: its outcome, the content
of the result cell `*retVal` after the call, the `PluginActor` calls it made
in order, and the lines it printed on the host output. -/
structure Reply (ρ : Type) where
  status : Status
  retVal : ρ
  calls : List ActorCall
  printed : List String
  deriving DecidableEq, Repr

section Service

variable {AppSummary App M OutputCapture TerminalOutputSwitch Writer : Type}

/-- `CliRpcCmd.GetApp`. -/
def GetApp {PApp : Type}
    (cmd : CliRpcCmd AppSummary App M OutputCapture TerminalOutputSwitch Writer)
    (gob : Gob AppSummary PApp) (appName : String) (retVal : PApp) : Reply PApp :=
  if !cmd.Config.HasTargetedOrganization then
    { status := .error "no organization targeted", retVal := retVal, calls := [], printed := [] }
  else
    let spaceGUID := cmd.Config.TargetedSpace.GUID
    if spaceGUID = "" then
      { status := .error "no space targeted", retVal := retVal, calls := [], printed := [] }
    else
      let calls := [ActorCall.GetDetailedAppSummary appName spaceGUID true]
      match cmd.PluginActor.GetDetailedAppSummary appName spaceGUID true with
      | (_, _, some err) => { status := .error err, retVal := retVal, calls := calls, printed := [] }
      | (app, _, none) =>
        match gob.Encode app with
        | (_, some err) => { status := .panic err, retVal := retVal, calls := calls, printed := [] }
        | (b, none) =>
          match gob.Decode b retVal with
          | (r, some err) => { status := .panic err, retVal := r, calls := calls, printed := [] }
          | (r, none) => { status := .ok, retVal := r, calls := calls, printed := [] }

/-- `CliRpcCmd.GetApps`. -/
def GetApps {PApplication : Type}
    (cmd : CliRpcCmd AppSummary App M OutputCapture TerminalOutputSwitch Writer)
    (gob : Gob (List App) (List PApplication)) (_appName : String)
    (retVal : List PApplication) : Reply (List PApplication) :=
  let spaceGUID := cmd.Config.TargetedSpace.GUID
  if spaceGUID = "" then
    { status := .error "no space targeted", retVal := retVal, calls := [], printed := [] }
  else
    let calls := [ActorCall.GetApplicationsBySpace spaceGUID]
    match cmd.PluginActor.GetApplicationsBySpace spaceGUID with
    | (_, _, some err) => { status := .error err, retVal := retVal, calls := calls, printed := [] }
    | (applications, warnings, none) =>
      let printed := warnings.map (fun warning => "GetApps warning: " ++ warning ++ "\n")
      match gob.Encode applications with
      | (_, some err) => { status := .panic err, retVal := retVal, calls := calls, printed := printed }
      | (b, none) =>
        match gob.Decode b retVal with
        | (r, some err) => { status := .panic err, retVal := r, calls := calls, printed := printed }
        | (r, none) => { status := .ok, retVal := r, calls := calls, printed := printed }

/-- `CliRpcCmd.GetCurrentOrg`. -/
def GetCurrentOrg {POrg : Type}
    (cmd : CliRpcCmd AppSummary App M OutputCapture TerminalOutputSwitch Writer)
    (gob : Gob ConfigOrganization POrg) (_args : String) (retVal : POrg) : Reply POrg :=
  let org := cmd.Config.TargetedOrganization
  if org.Name = "" then
    { status := .error "no organization targeted", retVal := retVal, calls := [], printed := [] }
  else
    match gob.Encode org with
    | (_, some err) => { status := .panic err, retVal := retVal, calls := [], printed := [] }
    | (b, none) =>
      match gob.Decode b retVal with
      | (r, some err) => { status := .panic err, retVal := r, calls := [], printed := [] }
      | (r, none) => { status := .ok, retVal := r, calls := [], printed := [] }

/-- `CliRpcCmd.GetCurrentSpace`. -/
def GetCurrentSpace
    (cmd : CliRpcCmd AppSummary App M OutputCapture TerminalOutputSwitch Writer)
    (gob : Gob Space PluginModels.Space) (_args : String)
    (retVal : PluginModels.Space) : Reply PluginModels.Space :=
  let orgGUID := cmd.Config.TargetedOrganization.GUID
  if orgGUID = "" then
    { status := .error "no organization targeted", retVal := retVal, calls := [], printed := [] }
  else
    let spaceName := cmd.Config.TargetedSpace.Name
    if spaceName = "" then
      { status := .error "no space targeted", retVal := retVal, calls := [], printed := [] }
    else
      let calls := [ActorCall.GetSpaceByNameAndOrganization spaceName orgGUID]
      match cmd.PluginActor.GetSpaceByNameAndOrganization spaceName orgGUID with
      | (_, _, some err) => { status := .error err, retVal := retVal, calls := calls, printed := [] }
      | (space, _, none) =>
        match gob.Encode space with
        | (_, some err) => { status := .panic err, retVal := retVal, calls := calls, printed := [] }
        | (b, none) =>
          match gob.Decode b retVal with
          | (r, some err) => { status := .panic err, retVal := r, calls := calls, printed := [] }
          | (r, none) => { status := .ok, retVal := r, calls := calls, printed := [] }

/-- `CliRpcCmd.GetOrg`.  The zero value of `plugin_models.Metadata` is
`default`. -/
def GetOrg {PM : Type} [Inhabited PM]
    (cmd : CliRpcCmd AppSummary App M OutputCapture TerminalOutputSwitch Writer)
    (gob : Gob M PM) (orgName : String)
    (retVal : PluginModels.OrgSummary PM) : Reply (PluginModels.OrgSummary PM) :=
  let calls1 := [ActorCall.GetOrganizationByName orgName]
  match cmd.PluginActor.GetOrganizationByName orgName with
  | (_, _, some err) => { status := .error err, retVal := retVal, calls := calls1, printed := [] }
  | (org, _, none) =>
    let calls2 := calls1 ++ [ActorCall.GetOrganizationSpaces org.GUID]
    match cmd.PluginActor.GetOrganizationSpaces org.GUID with
    | (_, _, some err) => { status := .error err, retVal := retVal, calls := calls2, printed := [] }
    | (spaces, _, none) =>
      let calls3 := calls2 ++ [ActorCall.GetOrganizationDomains org.GUID ""]
      match cmd.PluginActor.GetOrganizationDomains org.GUID "" with
      | (_, _, some err) =>
        { status := .error err, retVal := retVal, calls := calls3, printed := [] }
      | (domains, _, none) =>
        let retVal := { retVal with
          Spaces := spaces.foldl
            (fun acc (space : Space) =>
              acc ++ [({ GUID := space.GUID, Name := space.Name } : PluginModels.Space)])
            retVal.Spaces }
        let retVal := { retVal with
          Domains := domains.foldl
            (fun acc (domain : Domain) =>
              acc ++ [({ GUID := domain.GUID, Name := domain.Name } : PluginModels.Domain)])
            retVal.Domains }
        match gob.Encode org.Metadata with
        | (_, some err) => { status := .panic err, retVal := retVal, calls := calls3, printed := [] }
        | (b, none) =>
          match gob.Decode b default with
          | (_, some err) =>
            { status := .panic err, retVal := retVal, calls := calls3, printed := [] }
          | (metadata, none) =>
            { status := .ok,
              retVal := { retVal with Name := org.Name, GUID := org.GUID, Metadata := metadata },
              calls := calls3, printed := [] }

/-- `CliRpcCmd.GetSpace`. -/
def GetSpace
    (cmd : CliRpcCmd AppSummary App M OutputCapture TerminalOutputSwitch Writer)
    (gob : Gob Space PluginModels.Space) (spaceName : String)
    (retVal : PluginModels.Space) : Reply PluginModels.Space :=
  let orgGUID := cmd.Config.TargetedOrganization.GUID
  if orgGUID = "" then
    { status := .error "no organization targeted", retVal := retVal, calls := [], printed := [] }
  else
    let calls := [ActorCall.GetSpaceByNameAndOrganization spaceName orgGUID]
    match cmd.PluginActor.GetSpaceByNameAndOrganization spaceName orgGUID with
    | (_, _, some err) => { status := .error err, retVal := retVal, calls := calls, printed := [] }
    | (space, _, none) =>
      match gob.Encode space with
      | (_, some err) => { status := .panic err, retVal := retVal, calls := calls, printed := [] }
      | (b, none) =>
        match gob.Decode b retVal with
        | (r, some err) => { status := .panic err, retVal := r, calls := calls, printed := [] }
        | (r, none) => { status := .ok, retVal := r, calls := calls, printed := [] }

/-- `CliRpcCmd.GetSpaces`. -/
def GetSpaces
    (cmd : CliRpcCmd AppSummary App M OutputCapture TerminalOutputSwitch Writer)
    (gob : Gob (List Space) (List PluginModels.Space)) (_not_used : String)
    (retVal : List PluginModels.Space) : Reply (List PluginModels.Space) :=
  let orgGUID := cmd.Config.TargetedOrganization.GUID
  if orgGUID = "" then
    { status := .error "no organization targeted", retVal := retVal, calls := [], printed := [] }
  else
    let calls := [ActorCall.GetOrganizationSpaces orgGUID]
    match cmd.PluginActor.GetOrganizationSpaces orgGUID with
    | (_, _, some err) => { status := .error err, retVal := retVal, calls := calls, printed := [] }
    | (spaces, _, none) =>
      match gob.Encode spaces with
      | (_, some err) => { status := .error err, retVal := retVal, calls := calls, printed := [] }
      | (b, none) =>
        match gob.Decode b retVal with
        | (r, some err) => { status := .error err, retVal := r, calls := calls, printed := [] }
        | (r, none) => { status := .ok, retVal := r, calls := calls, printed := [] }

/-- What happens to the Shared Metadata Slot and its lock, in order. -/
inductive SlotEvent where
  | Lock (m : RWMutex)
  | Store (v : PluginMetadata)
  | Unlock (m : RWMutex)
  deriving DecidableEq, Repr

/-- What `SetPluginMetadata` leaves behind: the service object after the call,
the returned error, the content of `*retVal`, and the lock and slot events in
order (the deferred unlock runs last). -/
structure MetadataReply (C : Type) where
  cmd : C
  err : Option String
  retVal : Bool
  trace : List SlotEvent

/-- `CliRpcCmd.SetPluginMetadata`.  `Lock` returns once the write lock is
granted; acquisition and release are recorded as events. -/
def SetPluginMetadata
    (cmd : CliRpcCmd AppSummary App M OutputCapture TerminalOutputSwitch Writer)
    (pluginMetadata : PluginMetadata) (_retVal : Bool) :
    MetadataReply (CliRpcCmd AppSummary App M OutputCapture TerminalOutputSwitch Writer) :=
  let lock := [SlotEvent.Lock cmd.MetadataMutex]
  let cmd1 := { cmd with PluginMetadata := some pluginMetadata }
  let store := lock ++ [SlotEvent.Store pluginMetadata]
  { cmd := cmd1, err := none, retVal := true,
    trace := store ++ [SlotEvent.Unlock cmd1.MetadataMutex] }

end Service

/-- What `ParseCommandFromArgs` leaves behind: its exit code and the content
of the two capture buffers when it returns. -/
structure ParseResult where
  exitCode : Int
  outBuffer : String
  errBuffer : String
  deriving DecidableEq, Repr

/-- The command parser built by `command_parser.NewCommandParserForPlugins`
over two empty capture buffers. -/
structure CommandParser where
  ParseCommandFromArgs : List String → ParseResult

/-- What `CliCommand` leaves behind. -/
structure CommandReply where
  status : Status
  retVal : List String
  deriving DecidableEq, Repr

/-- `CliRpcCmd.CliCommand`.  `UnknownCommandCode` is
`command_parser.UnknownCommandCode`; `NewCommandParserForPlugins` is the
outcome of building the parser. -/
def CliCommand (UnknownCommandCode : Int)
    (NewCommandParserForPlugins : Except String CommandParser)
    (args : List String) (retVal : List String) : CommandReply :=
  match NewCommandParserForPlugins with
  | .error err => { status := .error err, retVal := retVal }
  | .ok p =>
    let r := p.ParseCommandFromArgs args
    let exitCode := r.exitCode
    if exitCode = UnknownCommandCode then
      { status := .error "UnknownCommandCode", retVal := retVal }
    else if exitCode > 0 then
      { status := .error "Some other error", retVal := retVal }
    else
      { status := .ok, retVal := [r.outBuffer, r.errBuffer] }

/-! ## Connection Proxy (`plugin/v7/cli_connection.go`) -/

/-- An established connection, named by a handle. -/
abbrev Conn := Nat

/-- What the handshake ping does, in order. -/
inductive PingEvent where
  | Dial (attempt : Nat)
  | Sleep (ms : Nat)
  | Close (conn : Conn)
  | Println (msg : String)
  | Exit (code : Nat)
  deriving DecidableEq, Repr

/-- The loop of `pingCLI` with `n` iterations left, about to run iteration
`i`; `connErr` is the current content of the variable of that name.  The
outcome of the dial of iteration `i` is `dial i`.  Gives the content of
`connErr` when the loop ends and the events of the loop. -/
def pingLoop (dial : Nat → Except String Conn) :
    Nat → Nat → Option String → Option String × List PingEvent
  | 0, _, connErr => (connErr, [])
  | n + 1, i, _ =>
    match dial i with
    | .error connErr =>
      let rest := pingLoop dial n (i + 1) (some connErr)
      (rest.1, PingEvent.Dial i :: PingEvent.Sleep 200 :: rest.2)
    | .ok conn => (none, [PingEvent.Dial i, PingEvent.Close conn])

/-- `cliConnection.pingCLI`: the events of the whole call. -/
def pingCLI (dial : Nat → Except String Conn) : List PingEvent :=
  let loop := pingLoop dial 5 0 none
  match loop.1 with
  | some connErr => loop.2 ++ [PingEvent.Println connErr, PingEvent.Exit 1]
  | none => loop.2

/-- Number of dial attempts in a run. -/
def attempts (tr : List PingEvent) : Nat :=
  tr.countP (fun e => match e with | .Dial _ => true | _ => false)

/-- The pauses of a run, in milliseconds, in order. -/
def pauses (tr : List PingEvent) : List Nat :=
  tr.filterMap (fun e => match e with | .Sleep ms => some ms | _ => none)

/-- The connections closed in a run, in order. -/
def closed (tr : List PingEvent) : List Conn :=
  tr.filterMap (fun e => match e with | .Close c => some c | _ => none)

/-- The exit statuses with which a run terminates the process. -/
def exits (tr : List PingEvent) : List Nat :=
  tr.filterMap (fun e => match e with | .Exit c => some c | _ => none)

/-- What a call through `withClientDo` does, in order. -/
inductive ClientEvent where
  | Dial
  | Invoke (client : Conn)
  | Close (client : Conn)
  deriving DecidableEq, Repr

/-- What `withClientDo` leaves behind: the returned error, the state of the
caller variables the callback writes, the connections open after the call,
and the events in order. -/
structure DoReply (σ : Type) where
  err : Option String
  state : σ
  openConns : List Conn
  trace : List ClientEvent

/-- `cliConnection.withClientDo`.  `dial` is the outcome of `rpc.Dial`; the
callback `f` reads and writes caller variables of type `σ` and returns an
error; `openConns` lists the connections open before the call.  The deferred
`client.Close()` runs after `f` returns. -/
def withClientDo {σ : Type} (dial : Except String Conn)
    (f : Conn → σ → σ × Option String) (state : σ) (openConns : List Conn) : DoReply σ :=
  match dial with
  | .error err => { err := some err, state := state, openConns := openConns, trace := [.Dial] }
  | .ok client =>
    let opened := client :: openConns
    let r := f client state
    { err := r.2, state := r.1, openConns := opened.erase client,
      trace := [.Dial, .Invoke client, .Close client] }

/-- `cliConnection.ApiEndpoint`.  `Call client method args reply` is
`client.Call`, giving the new content of the reply cell and the error. -/
def ApiEndpoint (dial : Except String Conn)
    (Call : Conn → String → String → String → String × Option String)
    (openConns : List Conn) : (String × Option String) × DoReply String :=
  let result := ""
  let r := withClientDo dial (fun client result => Call client "CliRpcCmd.ApiEndpoint" "" result)
    result openConns
  ((r.state, r.err), r)


/-! ## Sample values for the examples -/

/-- A host that targets nothing. -/
def untargetedConfig : Config :=
  { Target := "https://api.example.com", HasTargetedOrganization := false,
    TargetedOrganization := { GUID := "", Name := "" },
    TargetedSpace := { GUID := "", Name := "" },
    AccessToken := "", SkipSSLValidation := false, CurrentUserName := ("", none) }

/-- A host that targets an organization and a space. -/
def targetedConfig : Config :=
  { Target := "https://api.example.com", HasTargetedOrganization := true,
    TargetedOrganization := { GUID := "org-guid", Name := "org" },
    TargetedSpace := { GUID := "space-guid", Name := "space" },
    AccessToken := "bearer", SkipSSLValidation := false, CurrentUserName := ("admin", none) }

/-- An actor over string payloads; it knows every organization but the one
named `missing`, and fails to list the domains of the organization `o2`. -/
def sampleActor : PluginActor String String String :=
  { GetDetailedAppSummary := fun appName _ _ => (appName, [], none)
    GetApplicationsBySpace := fun _ => (["app-a", "app-b"], ["slow"], none)
    GetSpaceByNameAndOrganization := fun spaceName _ => ({ GUID := "s1", Name := spaceName }, [], none)
    GetOrganizationByName := fun orgName =>
      if orgName = "missing" then ({ GUID := "", Name := "", Metadata := "" }, [], some "org not found")
      else ({ GUID := orgName, Name := "org", Metadata := "labels" }, ["w"], none)
    GetOrganizationSpaces := fun _ =>
      ([{ GUID := "s1", Name := "dev" }, { GUID := "s2", Name := "prod" }], [], none)
    GetOrganizationDomains := fun orgGUID _ =>
      if orgGUID = "o2" then ([], [], some "domains unavailable")
      else ([{ GUID := "d1", Name := "example.com" }], [], none)
    RefreshAccessToken := ("bearer", none) }

/-- A service object over `sampleActor`. -/
def sampleCmd (config : Config) (slot : Option PluginMetadata) :
    CliRpcCmd String String String Unit Unit Unit :=
  { PluginMetadata := slot, MetadataMutex := { addr := 1 }, Config := config,
    PluginActor := sampleActor, outputCapture := (), terminalOutputSwitch := (),
    outputBucket := [], stdout := () }

/-- A codec whose decode step fails. -/
def brokenGob (α β : Type) : Gob α β :=
  { Encode := fun _ => ([1], none)
    Decode := fun _ dst => (dst, some "gob: type mismatch") }

/-- A codec whose encode step fails. -/
def brokenEncodeGob (α β : Type) : Gob α β :=
  { Encode := fun _ => ([], some "gob: type not registered")
    Decode := fun _ dst => (dst, none) }

/-- A codec that ignores the payload; decoding leaves the destination as it is. -/
def inertGob (α β : Type) : Gob α β :=
  { Encode := fun _ => ([1], none)
    Decode := fun _ dst => (dst, none) }

/-- A codec on strings: the decoded value is the encoded one. -/
def stringGob : Gob String String :=
  { Encode := fun v => (v.toList.map (fun c => c.toNat.toUInt8), none)
    Decode := fun b _ => (String.mk (b.map (fun x => Char.ofNat x.toNat)), none) }

/-- A parser that always returns the given exit code after writing to both
capture buffers. -/
def fixedParser (exitCode : Int) : CommandParser :=
  { ParseCommandFromArgs := fun _ =>
      { exitCode := exitCode, outBuffer := " out \n", errBuffer := " err \n" } }

/-- A host that starts listening just before the third dial: two refused
dials, then connection 7. -/
def lateListener : Nat → Except String Conn :=
  fun i => if i < 2 then .error "connection refused" else .ok 7

/-- No listener at all. -/
def noListener : Nat → Except String Conn :=
  fun _ => .error "connection refused"

/-- A remote method table for the examples: `ApiEndpoint` answers, every other
method is unknown. -/
def sampleCall : Conn → String → String → String → String × Option String :=
  fun _ method _ reply =>
    if method = "CliRpcCmd.ApiEndpoint" then ("https://api.example.com", none)
    else (reply, some "rpc: can not find method")

/-! ## Theorems: Version Gate -/

/-- The three-way comparison of identifiers agrees with the specification
ordering: exactly one of below, same, above holds and the result names it. -/
theorem PRVersion.identifier_trichotomy (a b : PRVersion) :
    (a.Compare b = -1 ∧ a.precedes b ∧ ¬ b.precedes a ∧ ¬ b.same a) ∨
    (a.Compare b = 0 ∧ b.same a ∧ ¬ a.precedes b ∧ ¬ b.precedes a) ∨
    (a.Compare b = 1 ∧ b.precedes a ∧ ¬ a.precedes b ∧ ¬ b.same a) := by
  obtain ⟨s1, n1, i1⟩ := a
  obtain ⟨s2, n2, i2⟩ := b
  cases i1 <;> cases i2
  · rcases lt_trichotomy s1 s2 with h | h | h
    · have h1 : s1 ≠ s2 := ne_of_lt h
      have h2 : ¬ s2 < s1 := not_lt_of_lt h
      simp [PRVersion.Compare, PRVersion.precedes, PRVersion.same, h, h1, h2, Ne.symm h1]
    · subst h
      simp [PRVersion.Compare, PRVersion.precedes, PRVersion.same]
    · have h1 : s1 ≠ s2 := ne_of_gt h
      have h2 : ¬ s1 < s2 := not_lt_of_lt h
      simp [PRVersion.Compare, PRVersion.precedes, PRVersion.same, h, h1, h2, Ne.symm h1]
  · simp [PRVersion.Compare, PRVersion.precedes, PRVersion.same]
  · simp [PRVersion.Compare, PRVersion.precedes, PRVersion.same]
  · rcases lt_trichotomy n1 n2 with h | h | h
    · have h1 : n1 ≠ n2 := ne_of_lt h
      have h2 : ¬ n2 < n1 := not_lt_of_lt h
      simp [PRVersion.Compare, PRVersion.precedes, PRVersion.same, h, h1, h2, Ne.symm h1]
    · subst h
      simp [PRVersion.Compare, PRVersion.precedes, PRVersion.same]
    · have h1 : n1 ≠ n2 := ne_of_gt h
      have h2 : ¬ n1 < n2 := not_lt_of_lt h
      simp [PRVersion.Compare, PRVersion.precedes, PRVersion.same, h, h1, h2, Ne.symm h1]

/-- Equal precedence of identifiers is symmetric. -/
theorem PRVersion.same_comm (a b : PRVersion) : a.same b ↔ b.same a := by
  unfold PRVersion.same
  constructor <;>
    (rintro (⟨h1, h2, h3⟩ | ⟨h1, h2, h3⟩)
     · exact Or.inl ⟨h2, h1, h3.symm⟩
     · exact Or.inr ⟨h2, h1, h3.symm⟩)

/-- The list comparison agrees with the specification ordering of
pre-release lists. -/
theorem comparePre_trichotomy : ∀ p q : List PRVersion,
    (comparePre p q = -1 ∧ preBelow p q ∧ ¬ preBelow q p ∧ ¬ preSame q p) ∨
    (comparePre p q = 0 ∧ preSame q p ∧ ¬ preBelow p q ∧ ¬ preBelow q p) ∨
    (comparePre p q = 1 ∧ preBelow q p ∧ ¬ preBelow p q ∧ ¬ preSame q p)
  | [], [] => by simp [comparePre, preBelow, preSame]
  | [], _ :: _ => by simp [comparePre, preBelow, preSame]
  | _ :: _, [] => by simp [comparePre, preBelow, preSame]
  | a :: as, b :: bs => by
    have ih := comparePre_trichotomy as bs
    rcases PRVersion.identifier_trichotomy a b with ⟨hc, h1, h2, h3⟩ | ⟨hc, h1, h2, h3⟩ | ⟨hc, h1, h2, h3⟩
    · have h4 : ¬ a.same b := fun h => h3 ((PRVersion.same_comm a b).1 h)
      simp [comparePre, preBelow, preSame, hc, h1, h2, h3, h4]
    · have h4 : a.same b := (PRVersion.same_comm b a).1 h1
      rcases ih with ⟨gc, g1, g2, g3⟩ | ⟨gc, g1, g2, g3⟩ | ⟨gc, g1, g2, g3⟩ <;>
        simp [comparePre, preBelow, preSame, hc, h1, h2, h3, h4, gc, g1, g2, g3]
    · have h4 : ¬ a.same b := fun h => h3 ((PRVersion.same_comm a b).1 h)
      simp [comparePre, preBelow, preSame, hc, h1, h2, h3, h4]

/-- The three-way comparison of versions agrees with the specification
ordering. -/
theorem Version.version_trichotomy (a b : Version) :
    (a.Compare b = -1 ∧ a.precedes b ∧ ¬ b.precedes a ∧ ¬ b.same a) ∨
    (a.Compare b = 0 ∧ b.same a ∧ ¬ a.precedes b ∧ ¬ b.precedes a) ∨
    (a.Compare b = 1 ∧ b.precedes a ∧ ¬ a.precedes b ∧ ¬ b.same a) := by
  obtain ⟨M1, m1, p1, pre1, b1⟩ := a
  obtain ⟨M2, m2, p2, pre2, b2⟩ := b
  rcases lt_trichotomy M1 M2 with h | h | h
  · have h1 : M1 ≠ M2 := ne_of_lt h
    have h2 : ¬ M2 < M1 := not_lt_of_lt h
    simp [Version.Compare, Version.precedes, Version.same, h, h1, h2, Ne.symm h1]
  swap
  · have h1 : M1 ≠ M2 := ne_of_gt h
    have h2 : ¬ M1 < M2 := not_lt_of_lt h
    simp [Version.Compare, Version.precedes, Version.same, h, h1, h2, Ne.symm h1]
  subst h
  rcases lt_trichotomy m1 m2 with h | h | h
  · have h1 : m1 ≠ m2 := ne_of_lt h
    have h2 : ¬ m2 < m1 := not_lt_of_lt h
    simp [Version.Compare, Version.precedes, Version.same, h, h1, h2, Ne.symm h1]
  swap
  · have h1 : m1 ≠ m2 := ne_of_gt h
    have h2 : ¬ m1 < m2 := not_lt_of_lt h
    simp [Version.Compare, Version.precedes, Version.same, h, h1, h2, Ne.symm h1]
  subst h
  rcases lt_trichotomy p1 p2 with h | h | h
  · have h1 : p1 ≠ p2 := ne_of_lt h
    have h2 : ¬ p2 < p1 := not_lt_of_lt h
    simp [Version.Compare, Version.precedes, Version.same, h, h1, h2, Ne.symm h1]
  swap
  · have h1 : p1 ≠ p2 := ne_of_gt h
    have h2 : ¬ p1 < p2 := not_lt_of_lt h
    simp [Version.Compare, Version.precedes, Version.same, h, h1, h2, Ne.symm h1]
  subst h
  cases pre1 with
  | nil =>
    cases pre2 with
    | nil => simp [Version.Compare, Version.precedes, Version.same, preReleaseBelow, preSame]
    | cons y ys => simp [Version.Compare, Version.precedes, Version.same, preReleaseBelow, preSame]
  | cons x xs =>
    cases pre2 with
    | nil => simp [Version.Compare, Version.precedes, Version.same, preReleaseBelow, preSame]
    | cons y ys =>
      rcases comparePre_trichotomy (x :: xs) (y :: ys) with
        ⟨gc, g1, g2, g3⟩ | ⟨gc, g1, g2, g3⟩ | ⟨gc, g1, g2, g3⟩ <;>
        simp [Version.Compare, Version.precedes, Version.same, preReleaseBelow, gc, g1, g2, g3]

/-- The library predicate `GTE` is the specification relation "at least". -/
theorem Version.GTE_iff_atLeast (a r : Version) : a.GTE r = true ↔ a.atLeast r := by
  unfold Version.GTE Version.atLeast
  rcases Version.version_trichotomy a r with ⟨hc, h1, h2, h3⟩ | ⟨hc, h1, h2, h3⟩ | ⟨hc, h1, h2, h3⟩ <;>
    simp [hc, h1, h2, h3]

/-- Under the specification ordering, "at least" is the negation of
"strictly below": the ordering is total. -/
theorem Version.atLeast_iff_not_precedes (a r : Version) : a.atLeast r ↔ ¬ a.precedes r := by
  unfold Version.atLeast
  rcases Version.version_trichotomy a r with ⟨hc, h1, h2, h3⟩ | ⟨hc, h1, h2, h3⟩ | ⟨hc, h1, h2, h3⟩ <;>
    simp [h1, h2, h3]

/-- C2: when the host version string is not the development sentinel and both
the host string and the required string parse as semantic versions,
`IsMinCliVersion` returns no error and writes `true` to its result exactly when
the host version is at least the required version in the semantic version
ordering (major, minor, patch numerically, then pre-release precedence);
otherwise it writes `false`. -/
theorem isMinCliVersion_semver_order (version : VersionPkg)
    (Make : String → Except String Version) (passedVersion : String) (retVal : Bool)
    (actual required : Version)
    (hdev : version.VersionString ≠ version.DefaultVersion)
    (hhost : Make version.VersionString = .ok actual)
    (hreq : Make passedVersion = .ok required) :
    (IsMinCliVersion version Make passedVersion retVal).err = none ∧
    ((IsMinCliVersion version Make passedVersion retVal).retVal = true ↔
      actual.atLeast required) := by
  simp [IsMinCliVersion, hdev, hhost, hreq, Version.GTE_iff_atLeast]

/-- C2 instance: host `6.47.2` against the requirement `6.40.0-rc.1`. -/
theorem isMinCliVersion_semver_order_witness :
    (IsMinCliVersion ⟨"6.47.2", "0.0.0-unknown-version"⟩ semverMake "6.40.0-rc.1" false).err = none ∧
    ((IsMinCliVersion ⟨"6.47.2", "0.0.0-unknown-version"⟩ semverMake "6.40.0-rc.1" false).retVal = true ↔
      Version.atLeast ⟨6, 47, 2, [], []⟩ ⟨6, 40, 0, [⟨"rc", 0, false⟩, ⟨"", 1, true⟩], []⟩) :=
  isMinCliVersion_semver_order ⟨"6.47.2", "0.0.0-unknown-version"⟩ semverMake "6.40.0-rc.1" false
    ⟨6, 47, 2, [], []⟩ ⟨6, 40, 0, [⟨"rc", 0, false⟩, ⟨"", 1, true⟩], []⟩
    (by decide) rfl rfl

/-- C3: when the host version string equals the development sentinel,
`IsMinCliVersion` returns no error and writes `true`, for every required
string, every previous content of the result and every parser; no string is
handed to the parser. -/
theorem isMinCliVersion_development (version : VersionPkg)
    (Make : String → Except String Version) (passedVersion : String) (retVal : Bool)
    (hdev : version.VersionString = version.DefaultVersion) :
    IsMinCliVersion version Make passedVersion retVal =
      { err := none, retVal := true, parsed := [] } := by
  simp [IsMinCliVersion, hdev]

/-- C3 instance: a development host and a requirement that is not a semantic
version. -/
theorem isMinCliVersion_development_witness :
    semverMake "not-a-version" = .error "No Major.Minor.Patch elements found" ∧
    IsMinCliVersion ⟨"0.0.0-unknown-version", "0.0.0-unknown-version"⟩ semverMake
      "not-a-version" false = { err := none, retVal := true, parsed := [] } :=
  ⟨rfl,
   isMinCliVersion_development ⟨"0.0.0-unknown-version", "0.0.0-unknown-version"⟩ semverMake
     "not-a-version" false rfl⟩

/-- C4: when the host version string is not the development sentinel,
`IsMinCliVersion` returns an error exactly when the host string or the required
string fails to parse; on an error the result cell keeps its previous content;
the host string is parsed first, so a host parse error is the one returned
(and the required string is then not parsed at all). -/
theorem isMinCliVersion_parse_error (version : VersionPkg)
    (Make : String → Except String Version) (passedVersion : String) (retVal : Bool)
    (hdev : version.VersionString ≠ version.DefaultVersion) :
    (((IsMinCliVersion version Make passedVersion retVal).err ≠ none) ↔
      ((∃ e, Make version.VersionString = .error e) ∨ (∃ e, Make passedVersion = .error e))) ∧
    ((IsMinCliVersion version Make passedVersion retVal).err ≠ none →
      (IsMinCliVersion version Make passedVersion retVal).retVal = retVal) ∧
    (∀ e, Make version.VersionString = .error e →
      (IsMinCliVersion version Make passedVersion retVal).err = some e ∧
      (IsMinCliVersion version Make passedVersion retVal).parsed = [version.VersionString]) ∧
    (∀ a e, Make version.VersionString = .ok a → Make passedVersion = .error e →
      (IsMinCliVersion version Make passedVersion retVal).err = some e) := by
  unfold IsMinCliVersion
  rw [if_neg hdev]
  cases h1 : Make version.VersionString with
  | error e1 => simp
  | ok a =>
    cases h2 : Make passedVersion with
    | error e2 => simp
    | ok r => simp

/-- C4 instance: both strings are malformed; the host error is reported and
the result keeps its previous content. -/
theorem isMinCliVersion_parse_error_witness :
    ((IsMinCliVersion ⟨"6.x", "0.0.0-unknown-version"⟩ semverMake "" true).err ≠ none ↔
      ((∃ e, semverMake "6.x" = .error e) ∨ (∃ e, semverMake "" = .error e))) ∧
    ((IsMinCliVersion ⟨"6.x", "0.0.0-unknown-version"⟩ semverMake "" true).err ≠ none →
      (IsMinCliVersion ⟨"6.x", "0.0.0-unknown-version"⟩ semverMake "" true).retVal = true) ∧
    (∀ e, semverMake "6.x" = .error e →
      (IsMinCliVersion ⟨"6.x", "0.0.0-unknown-version"⟩ semverMake "" true).err = some e ∧
      (IsMinCliVersion ⟨"6.x", "0.0.0-unknown-version"⟩ semverMake "" true).parsed = ["6.x"]) ∧
    (∀ a e, semverMake "6.x" = .ok a → semverMake "" = .error e →
      (IsMinCliVersion ⟨"6.x", "0.0.0-unknown-version"⟩ semverMake "" true).err = some e) :=
  isMinCliVersion_parse_error ⟨"6.x", "0.0.0-unknown-version"⟩ semverMake "" true (by decide)

/-! ## Theorems: RPC Service -/

section ServiceTheorems

variable {AppSummary App M OutputCapture TerminalOutputSwitch Writer : Type}

/-- C1: a data-returning call issued while the targeting it needs is absent
returns the targeting error, invokes no `PluginActor` method, prints nothing
and leaves its result cell as it was.  `GetApp` checks the organization first
and the space GUID second; `GetApps` checks the space GUID; `GetCurrentOrg`
the organization name; `GetCurrentSpace` the organization GUID first and the
space name second; `GetSpace` and `GetSpaces` the organization GUID. -/
theorem untargeted_call_fails_before_actor {PApp PApplication POrg : Type}
    (cmd : CliRpcCmd AppSummary App M OutputCapture TerminalOutputSwitch Writer)
    (gobApp : Gob AppSummary PApp) (gobApps : Gob (List App) (List PApplication))
    (gobOrg : Gob ConfigOrganization POrg) (gobSpace : Gob Space PluginModels.Space)
    (gobSpaces : Gob (List Space) (List PluginModels.Space)) (arg : String)
    (rApp : PApp) (rApps : List PApplication) (rOrg : POrg) (rSpace : PluginModels.Space)
    (rSpaces : List PluginModels.Space) :
    (cmd.Config.HasTargetedOrganization = false →
      GetApp cmd gobApp arg rApp =
        { status := .error "no organization targeted", retVal := rApp, calls := [], printed := [] }) ∧
    (cmd.Config.HasTargetedOrganization = true → cmd.Config.TargetedSpace.GUID = "" →
      GetApp cmd gobApp arg rApp =
        { status := .error "no space targeted", retVal := rApp, calls := [], printed := [] }) ∧
    (cmd.Config.TargetedSpace.GUID = "" →
      GetApps cmd gobApps arg rApps =
        { status := .error "no space targeted", retVal := rApps, calls := [], printed := [] }) ∧
    (cmd.Config.TargetedOrganization.Name = "" →
      GetCurrentOrg cmd gobOrg arg rOrg =
        { status := .error "no organization targeted", retVal := rOrg, calls := [], printed := [] }) ∧
    (cmd.Config.TargetedOrganization.GUID = "" →
      GetCurrentSpace cmd gobSpace arg rSpace =
        { status := .error "no organization targeted", retVal := rSpace, calls := [],
          printed := [] }) ∧
    (cmd.Config.TargetedOrganization.GUID ≠ "" → cmd.Config.TargetedSpace.Name = "" →
      GetCurrentSpace cmd gobSpace arg rSpace =
        { status := .error "no space targeted", retVal := rSpace, calls := [], printed := [] }) ∧
    (cmd.Config.TargetedOrganization.GUID = "" →
      GetSpace cmd gobSpace arg rSpace =
        { status := .error "no organization targeted", retVal := rSpace, calls := [],
          printed := [] }) ∧
    (cmd.Config.TargetedOrganization.GUID = "" →
      GetSpaces cmd gobSpaces arg rSpaces =
        { status := .error "no organization targeted", retVal := rSpaces, calls := [],
          printed := [] }) := by
  refine ⟨?_, ?_, ?_, ?_, ?_, ?_, ?_, ?_⟩
  · intro h; simp [GetApp, h]
  · intro h1 h2; simp [GetApp, h1, h2]
  · intro h; simp [GetApps, h]
  · intro h; simp [GetCurrentOrg, h]
  · intro h; simp [GetCurrentSpace, h]
  · intro h1 h2; simp [GetCurrentSpace, h1, h2]
  · intro h; simp [GetSpace, h]
  · intro h; simp [GetSpaces, h]

/-- C1 instance: a host that targets nothing; every one of the six calls
fails with its targeting error and an empty call list. -/
theorem untargeted_call_fails_before_actor_witness :
    GetApp (sampleCmd untargetedConfig none) stringGob "app" "old" =
      { status := .error "no organization targeted", retVal := "old", calls := [], printed := [] } ∧
    GetApps (sampleCmd untargetedConfig none) (inertGob (List String) (List String)) "" ["old"] =
      { status := .error "no space targeted", retVal := ["old"], calls := [], printed := [] } ∧
    GetCurrentOrg (sampleCmd untargetedConfig none) (inertGob ConfigOrganization String) "" "old" =
      { status := .error "no organization targeted", retVal := "old", calls := [], printed := [] } ∧
    GetCurrentSpace (sampleCmd untargetedConfig none) (inertGob Space PluginModels.Space) ""
        { GUID := "g", Name := "n" } =
      { status := .error "no organization targeted", retVal := { GUID := "g", Name := "n" },
        calls := [], printed := [] } ∧
    GetSpace (sampleCmd untargetedConfig none) (inertGob Space PluginModels.Space) ""
        { GUID := "g", Name := "n" } =
      { status := .error "no organization targeted", retVal := { GUID := "g", Name := "n" },
        calls := [], printed := [] } ∧
    GetSpaces (sampleCmd untargetedConfig none)
        (inertGob (List Space) (List PluginModels.Space)) "" [] =
      { status := .error "no organization targeted", retVal := [], calls := [], printed := [] } :=
  have h := untargeted_call_fails_before_actor (sampleCmd untargetedConfig none) stringGob
    (inertGob (List String) (List String)) (inertGob ConfigOrganization String)
    (inertGob Space PluginModels.Space) (inertGob (List Space) (List PluginModels.Space)) ""
    "old" ["old"] "old" { GUID := "g", Name := "n" } []
  ⟨(untargeted_call_fails_before_actor (sampleCmd untargetedConfig none) stringGob
      (inertGob (List String) (List String)) (inertGob ConfigOrganization String)
      (inertGob Space PluginModels.Space) (inertGob (List Space) (List PluginModels.Space)) "app"
      "old" ["old"] "old" { GUID := "g", Name := "n" } []).1 rfl,
   h.2.2.1 rfl, h.2.2.2.1 rfl, h.2.2.2.2.1 rfl, h.2.2.2.2.2.2.1 rfl, h.2.2.2.2.2.2.2 rfl⟩

/-- C6: `SetPluginMetadata` returns no error, writes `true` to its result,
leaves the Shared Metadata Slot holding exactly the pushed value whatever it
held before (a second push replaces the first with nothing merged), takes the
write lock before the store and releases it after, and changes no other field
of the service. -/
theorem setPluginMetadata_replaces_slot
    (cmd : CliRpcCmd AppSummary App M OutputCapture TerminalOutputSwitch Writer)
    (m1 m2 : PluginMetadata) (retVal retVal2 : Bool) :
    (SetPluginMetadata cmd m1 retVal).err = none ∧
    (SetPluginMetadata cmd m1 retVal).retVal = true ∧
    (SetPluginMetadata cmd m1 retVal).cmd.PluginMetadata = some m1 ∧
    (SetPluginMetadata (SetPluginMetadata cmd m1 retVal).cmd m2 retVal2).cmd.PluginMetadata =
      some m2 ∧
    (SetPluginMetadata cmd m1 retVal).trace =
      [SlotEvent.Lock cmd.MetadataMutex, SlotEvent.Store m1, SlotEvent.Unlock cmd.MetadataMutex] ∧
    (SetPluginMetadata cmd m1 retVal).cmd = { cmd with PluginMetadata := some m1 } ∧
    (SetPluginMetadata cmd m1 retVal).cmd.MetadataMutex = cmd.MetadataMutex ∧
    (SetPluginMetadata cmd m1 retVal).cmd.Config = cmd.Config ∧
    (SetPluginMetadata cmd m1 retVal).cmd.PluginActor = cmd.PluginActor ∧
    (SetPluginMetadata cmd m1 retVal).cmd.outputCapture = cmd.outputCapture ∧
    (SetPluginMetadata cmd m1 retVal).cmd.terminalOutputSwitch = cmd.terminalOutputSwitch ∧
    (SetPluginMetadata cmd m1 retVal).cmd.outputBucket = cmd.outputBucket ∧
    (SetPluginMetadata cmd m1 retVal).cmd.stdout = cmd.stdout := by
  simp [SetPluginMetadata]

/-- Appending one converted element per iteration builds the converted list
behind what was there. -/
theorem foldl_append_singleton {α β : Type} (f : α → β) (xs : List α) (init : List β) :
    xs.foldl (fun acc x => acc ++ [f x]) init = init ++ xs.map f := by
  induction xs generalizing init with
  | nil => simp
  | cons x xs ih => simp [ih]

/-- In `GetApp`, `GetApps`, `GetCurrentOrg`, `GetCurrentSpace`, `GetOrg` and
`GetSpace` a returned error is a targeting error or the error of the actor:
a failure of the encode or decode step never comes back as a returned error. -/
theorem sibling_errors_are_not_codec_errors {PApp PApplication POrg PM : Type} [Inhabited PM]
    (cmd : CliRpcCmd AppSummary App M OutputCapture TerminalOutputSwitch Writer)
    (gobApp : Gob AppSummary PApp) (gobApps : Gob (List App) (List PApplication))
    (gobOrg : Gob ConfigOrganization POrg) (gobSpace : Gob Space PluginModels.Space)
    (gobMeta : Gob M PM) (arg : String)
    (rApp : PApp) (rApps : List PApplication) (rOrg : POrg) (rSpace : PluginModels.Space)
    (rSummary : PluginModels.OrgSummary PM) (e : String) :
    ((GetApp cmd gobApp arg rApp).status = .error e →
      e = "no organization targeted" ∨ e = "no space targeted" ∨
      (cmd.PluginActor.GetDetailedAppSummary arg cmd.Config.TargetedSpace.GUID true).2.2 = some e) ∧
    ((GetApps cmd gobApps arg rApps).status = .error e →
      e = "no space targeted" ∨
      (cmd.PluginActor.GetApplicationsBySpace cmd.Config.TargetedSpace.GUID).2.2 = some e) ∧
    ((GetCurrentOrg cmd gobOrg arg rOrg).status = .error e → e = "no organization targeted") ∧
    ((GetCurrentSpace cmd gobSpace arg rSpace).status = .error e →
      e = "no organization targeted" ∨ e = "no space targeted" ∨
      (cmd.PluginActor.GetSpaceByNameAndOrganization cmd.Config.TargetedSpace.Name
        cmd.Config.TargetedOrganization.GUID).2.2 = some e) ∧
    ((GetSpace cmd gobSpace arg rSpace).status = .error e →
      e = "no organization targeted" ∨
      (cmd.PluginActor.GetSpaceByNameAndOrganization arg
        cmd.Config.TargetedOrganization.GUID).2.2 = some e) ∧
    ((GetOrg cmd gobMeta arg rSummary).status = .error e →
      (cmd.PluginActor.GetOrganizationByName arg).2.2 = some e ∨
      (cmd.PluginActor.GetOrganizationSpaces
        (cmd.PluginActor.GetOrganizationByName arg).1.GUID).2.2 = some e ∨
      (cmd.PluginActor.GetOrganizationDomains
        (cmd.PluginActor.GetOrganizationByName arg).1.GUID "").2.2 = some e) := by
  refine ⟨?_, ?_, ?_, ?_, ?_, ?_⟩
  · by_cases h1 : cmd.Config.HasTargetedOrganization = true <;>
    by_cases h2 : cmd.Config.TargetedSpace.GUID = "" <;>
    rcases hA : cmd.PluginActor.GetDetailedAppSummary arg cmd.Config.TargetedSpace.GUID true
      with ⟨app, w, _ | ea⟩ <;>
    rcases hE : gobApp.Encode app with ⟨b, _ | ee⟩ <;>
    rcases hD : gobApp.Decode b rApp with ⟨r, _ | ed⟩ <;>
    simp [GetApp, h1, h2, hA, hE, hD] <;> intro h <;> simp [← h]
  · by_cases h2 : cmd.Config.TargetedSpace.GUID = "" <;>
    rcases hA : cmd.PluginActor.GetApplicationsBySpace cmd.Config.TargetedSpace.GUID
      with ⟨app, w, _ | ea⟩ <;>
    rcases hE : gobApps.Encode app with ⟨b, _ | ee⟩ <;>
    rcases hD : gobApps.Decode b rApps with ⟨r, _ | ed⟩ <;>
    simp [GetApps, h2, hA, hE, hD] <;> intro h <;> simp [← h]
  · by_cases h2 : cmd.Config.TargetedOrganization.Name = "" <;>
    rcases hE : gobOrg.Encode cmd.Config.TargetedOrganization with ⟨b, _ | ee⟩ <;>
    rcases hD : gobOrg.Decode b rOrg with ⟨r, _ | ed⟩ <;>
    simp [GetCurrentOrg, h2, hE, hD] <;> intro h <;> simp [← h]
  · by_cases h1 : cmd.Config.TargetedOrganization.GUID = "" <;>
    by_cases h2 : cmd.Config.TargetedSpace.Name = "" <;>
    rcases hA : cmd.PluginActor.GetSpaceByNameAndOrganization cmd.Config.TargetedSpace.Name
      cmd.Config.TargetedOrganization.GUID with ⟨app, w, _ | ea⟩ <;>
    rcases hE : gobSpace.Encode app with ⟨b, _ | ee⟩ <;>
    rcases hD : gobSpace.Decode b rSpace with ⟨r, _ | ed⟩ <;>
    simp [GetCurrentSpace, h1, h2, hA, hE, hD] <;> intro h <;> simp [← h]
  · by_cases h1 : cmd.Config.TargetedOrganization.GUID = "" <;>
    rcases hA : cmd.PluginActor.GetSpaceByNameAndOrganization arg
      cmd.Config.TargetedOrganization.GUID with ⟨app, w, _ | ea⟩ <;>
    rcases hE : gobSpace.Encode app with ⟨b, _ | ee⟩ <;>
    rcases hD : gobSpace.Decode b rSpace with ⟨r, _ | ed⟩ <;>
    simp [GetSpace, h1, hA, hE, hD] <;> intro h <;> simp [← h]
  · rcases hO : cmd.PluginActor.GetOrganizationByName arg with ⟨org, w1, _ | eo⟩ <;>
    rcases hS : cmd.PluginActor.GetOrganizationSpaces org.GUID with ⟨spaces, w2, _ | es⟩ <;>
    rcases hDo : cmd.PluginActor.GetOrganizationDomains org.GUID "" with ⟨domains, w3, _ | edo⟩ <;>
    rcases hE : gobMeta.Encode org.Metadata with ⟨b, _ | ee⟩ <;>
    rcases hD : gobMeta.Decode b default with ⟨r, _ | ed⟩ <;>
    simp [GetOrg, hO, hS, hDo, hE, hD] <;> intro h <;> simp [← h]

/-- In the same six methods a failing encode step, and a failing decode step
after a successful encode, ends the call in a panic carrying that error;
shown here on `GetSpace`, whose body differs from `GetSpaces` only in the
payload type and in what it does with the two codec errors. -/
theorem getSpace_codec_failure_panics
    (cmd : CliRpcCmd AppSummary App M OutputCapture TerminalOutputSwitch Writer)
    (gob : Gob Space PluginModels.Space) (spaceName : String) (retVal : PluginModels.Space)
    (space : Space) (w : Warnings)
    (horg : cmd.Config.TargetedOrganization.GUID ≠ "")
    (hact : cmd.PluginActor.GetSpaceByNameAndOrganization spaceName
      cmd.Config.TargetedOrganization.GUID = (space, w, none)) :
    (∀ b e, gob.Encode space = (b, some e) →
      (GetSpace cmd gob spaceName retVal).status = .panic e) ∧
    (∀ b r e, gob.Encode space = (b, none) → gob.Decode b retVal = (r, some e) →
      (GetSpace cmd gob spaceName retVal).status = .panic e) := by
  constructor
  · intro b e h; simp [GetSpace, horg, hact, h]
  · intro b r e h1 h2; simp [GetSpace, horg, hact, h1, h2]

/-- `GetSpaces` never panics: whatever the collaborators and the codec do,
its outcome is success or a returned error. -/
theorem getSpaces_never_panics
    (cmd : CliRpcCmd AppSummary App M OutputCapture TerminalOutputSwitch Writer)
    (gob : Gob (List Space) (List PluginModels.Space)) (arg : String)
    (retVal : List PluginModels.Space) (e : String) :
    (GetSpaces cmd gob arg retVal).status ≠ .panic e := by
  by_cases h1 : cmd.Config.TargetedOrganization.GUID = "" <;>
  rcases hA : cmd.PluginActor.GetOrganizationSpaces cmd.Config.TargetedOrganization.GUID
    with ⟨spaces, w, _ | ea⟩ <;>
  rcases hE : gob.Encode spaces with ⟨b, _ | ee⟩ <;>
  rcases hD : gob.Decode b retVal with ⟨r, _ | ed⟩ <;>
  simp [GetSpaces, h1, hA, hE, hD]

/-- C7 fails on `GetSpaces`: with an organization targeted and the spaces
fetched, a failing decode step and a failing encode step each come back as a
returned error, not as a panic; the same codecs make `GetSpace` panic. -/
theorem getSpaces_returns_codec_failure :
    GetSpaces (sampleCmd targetedConfig none) (brokenGob (List Space) (List PluginModels.Space))
        "" [] =
      { status := .error "gob: type mismatch", retVal := [],
        calls := [ActorCall.GetOrganizationSpaces "org-guid"], printed := [] } ∧
    GetSpaces (sampleCmd targetedConfig none)
        (brokenEncodeGob (List Space) (List PluginModels.Space)) "" [] =
      { status := .error "gob: type not registered", retVal := [],
        calls := [ActorCall.GetOrganizationSpaces "org-guid"], printed := [] } ∧
    (GetSpace (sampleCmd targetedConfig none) (brokenGob Space PluginModels.Space) "dev"
        { GUID := "", Name := "" }).status = .panic "gob: type mismatch" ∧
    (GetSpace (sampleCmd targetedConfig none) (brokenEncodeGob Space PluginModels.Space) "dev"
        { GUID := "", Name := "" }).status = .panic "gob: type not registered" := by
  refine ⟨by decide, by decide, by decide, by decide⟩

/-- C10: `GetOrg` on a result whose `Spaces` and `Domains` are empty.  When the
three lookups and the metadata re-encoding succeed, the result carries the name
and GUID of the organization, one (GUID, Name) entry per space and per domain
of the actor in the same order, and the decoded metadata; the lookups are made
in the order organization, spaces, domains (with an empty label selector).
When a lookup fails its error is returned, no later lookup is made and the
result keeps its content. -/
theorem getOrg_assembles_summary {PM : Type} [Inhabited PM]
    (cmd : CliRpcCmd AppSummary App M OutputCapture TerminalOutputSwitch Writer)
    (gob : Gob M PM) (orgName : String) (retVal : PluginModels.OrgSummary PM)
    (hs : retVal.Spaces = []) (hd : retVal.Domains = []) :
    (∀ org w1 spaces w2 domains w3 b metadata,
      cmd.PluginActor.GetOrganizationByName orgName = (org, w1, none) →
      cmd.PluginActor.GetOrganizationSpaces org.GUID = (spaces, w2, none) →
      cmd.PluginActor.GetOrganizationDomains org.GUID "" = (domains, w3, none) →
      gob.Encode org.Metadata = (b, none) → gob.Decode b default = (metadata, none) →
      GetOrg cmd gob orgName retVal =
        { status := .ok,
          retVal :=
            { Name := org.Name, GUID := org.GUID, Metadata := metadata,
              Spaces := spaces.map (fun space => { GUID := space.GUID, Name := space.Name }),
              Domains := domains.map (fun domain => { GUID := domain.GUID, Name := domain.Name }) },
          calls := [ActorCall.GetOrganizationByName orgName,
                    ActorCall.GetOrganizationSpaces org.GUID,
                    ActorCall.GetOrganizationDomains org.GUID ""],
          printed := [] } ∧
      (GetOrg cmd gob orgName retVal).retVal.Spaces.length = spaces.length ∧
      (GetOrg cmd gob orgName retVal).retVal.Domains.length = domains.length) ∧
    (∀ org w1 e, cmd.PluginActor.GetOrganizationByName orgName = (org, w1, some e) →
      GetOrg cmd gob orgName retVal =
        { status := .error e, retVal := retVal,
          calls := [ActorCall.GetOrganizationByName orgName], printed := [] }) ∧
    (∀ org w1 spaces w2 e,
      cmd.PluginActor.GetOrganizationByName orgName = (org, w1, none) →
      cmd.PluginActor.GetOrganizationSpaces org.GUID = (spaces, w2, some e) →
      GetOrg cmd gob orgName retVal =
        { status := .error e, retVal := retVal,
          calls := [ActorCall.GetOrganizationByName orgName,
                    ActorCall.GetOrganizationSpaces org.GUID], printed := [] }) ∧
    (∀ org w1 spaces w2 domains w3 e,
      cmd.PluginActor.GetOrganizationByName orgName = (org, w1, none) →
      cmd.PluginActor.GetOrganizationSpaces org.GUID = (spaces, w2, none) →
      cmd.PluginActor.GetOrganizationDomains org.GUID "" = (domains, w3, some e) →
      GetOrg cmd gob orgName retVal =
        { status := .error e, retVal := retVal,
          calls := [ActorCall.GetOrganizationByName orgName,
                    ActorCall.GetOrganizationSpaces org.GUID,
                    ActorCall.GetOrganizationDomains org.GUID ""], printed := [] }) := by
  refine ⟨?_, ?_, ?_, ?_⟩
  · intro org w1 spaces w2 domains w3 b metadata h1 h2 h3 h4 h5
    have key : GetOrg cmd gob orgName retVal =
        { status := .ok,
          retVal :=
            { Name := org.Name, GUID := org.GUID, Metadata := metadata,
              Spaces := spaces.map (fun space => { GUID := space.GUID, Name := space.Name }),
              Domains := domains.map (fun domain => { GUID := domain.GUID, Name := domain.Name }) },
          calls := [ActorCall.GetOrganizationByName orgName,
                    ActorCall.GetOrganizationSpaces org.GUID,
                    ActorCall.GetOrganizationDomains org.GUID ""],
          printed := [] } := by
      simp [GetOrg, h1, h2, h3, h4, h5, hs, hd, foldl_append_singleton]
    rw [key]
    simp
  · intro org w1 e h1
    simp [GetOrg, h1]
  · intro org w1 spaces w2 e h1 h2
    simp [GetOrg, h1, h2]
  · intro org w1 spaces w2 domains w3 e h1 h2 h3
    simp [GetOrg, h1, h2, h3]

/-- C10 instance: the organization `o1` with two spaces and one domain; the
organization `missing`, whose lookup fails; the organization `o2`, whose
domain lookup fails after the two other lookups. -/
theorem getOrg_assembles_summary_witness :
    GetOrg (sampleCmd targetedConfig none) stringGob "o1"
        { Name := "", GUID := "", Metadata := "", Spaces := [], Domains := [] } =
      { status := .ok,
        retVal := { Name := "org", GUID := "o1", Metadata := "labels",
                    Spaces := [{ GUID := "s1", Name := "dev" }, { GUID := "s2", Name := "prod" }],
                    Domains := [{ GUID := "d1", Name := "example.com" }] },
        calls := [ActorCall.GetOrganizationByName "o1", ActorCall.GetOrganizationSpaces "o1",
                  ActorCall.GetOrganizationDomains "o1" ""],
        printed := [] } ∧
    GetOrg (sampleCmd targetedConfig none) stringGob "missing"
        { Name := "", GUID := "", Metadata := "", Spaces := [], Domains := [] } =
      { status := .error "org not found",
        retVal := { Name := "", GUID := "", Metadata := "", Spaces := [], Domains := [] },
        calls := [ActorCall.GetOrganizationByName "missing"], printed := [] } ∧
    GetOrg (sampleCmd targetedConfig none) stringGob "o2"
        { Name := "", GUID := "", Metadata := "", Spaces := [], Domains := [] } =
      { status := .error "domains unavailable",
        retVal := { Name := "", GUID := "", Metadata := "", Spaces := [], Domains := [] },
        calls := [ActorCall.GetOrganizationByName "o2", ActorCall.GetOrganizationSpaces "o2",
                  ActorCall.GetOrganizationDomains "o2" ""], printed := [] } :=
  ⟨((getOrg_assembles_summary (sampleCmd targetedConfig none) stringGob "o1"
      { Name := "", GUID := "", Metadata := "", Spaces := [], Domains := [] } rfl rfl).1
      { GUID := "o1", Name := "org", Metadata := "labels" } ["w"]
      [{ GUID := "s1", Name := "dev" }, { GUID := "s2", Name := "prod" }] []
      [{ GUID := "d1", Name := "example.com" }] []
      [108, 97, 98, 101, 108, 115] "labels" rfl rfl rfl rfl rfl).1,
   (getOrg_assembles_summary (sampleCmd targetedConfig none) stringGob "missing"
      { Name := "", GUID := "", Metadata := "", Spaces := [], Domains := [] } rfl rfl).2.1
      { GUID := "", Name := "", Metadata := "" } [] "org not found" rfl,
   (getOrg_assembles_summary (sampleCmd targetedConfig none) stringGob "o2"
      { Name := "", GUID := "", Metadata := "", Spaces := [], Domains := [] } rfl rfl).2.2.2
      { GUID := "o2", Name := "org", Metadata := "labels" } ["w"]
      [{ GUID := "s1", Name := "dev" }, { GUID := "s2", Name := "prod" }] []
      [] [] "domains unavailable" rfl rfl rfl⟩

end ServiceTheorems

/-- C5 as stated fails: with the unknown-command code at -666, a parser exit
code of -1 is non-zero and is not the unknown-command code, yet `CliCommand`
succeeds and writes the captured buffers instead of returning the generic
execution error. -/
theorem cliCommand_negative_exit_succeeds :
    ((fixedParser (-1)).ParseCommandFromArgs ["bogus"]).exitCode ≠ 0 ∧
    ((fixedParser (-1)).ParseCommandFromArgs ["bogus"]).exitCode ≠ -666 ∧
    CliCommand (-666) (.ok (fixedParser (-1))) ["bogus"] [] =
      { status := .ok, retVal := [" out \n", " err \n"] } ∧
    (CliCommand (-666) (.ok (fixedParser (-1))) ["bogus"] []).status ≠
      .error "Some other error" := by
  refine ⟨by decide, by decide, by decide, by decide⟩

/-- C5, amended: once the parser is built, the outcome of `CliCommand` is
decided by the exit code alone.  The unknown-command code gives the
unknown-command error; every other strictly positive code gives the generic
execution error, which is a different error; every other code that is zero or
negative gives success with the result set to the two captured buffers,
untrimmed.  On either error the result cell keeps its content. -/
theorem cliCommand_outcome_by_exit_code (UnknownCommandCode : Int) (p : CommandParser)
    (args retVal : List String) :
    ((p.ParseCommandFromArgs args).exitCode = UnknownCommandCode →
      CliCommand UnknownCommandCode (.ok p) args retVal =
        { status := .error "UnknownCommandCode", retVal := retVal }) ∧
    ((p.ParseCommandFromArgs args).exitCode ≠ UnknownCommandCode →
      (p.ParseCommandFromArgs args).exitCode > 0 →
      CliCommand UnknownCommandCode (.ok p) args retVal =
        { status := .error "Some other error", retVal := retVal }) ∧
    ((p.ParseCommandFromArgs args).exitCode ≠ UnknownCommandCode →
      (p.ParseCommandFromArgs args).exitCode ≤ 0 →
      CliCommand UnknownCommandCode (.ok p) args retVal =
        { status := .ok,
          retVal := [(p.ParseCommandFromArgs args).outBuffer,
                     (p.ParseCommandFromArgs args).errBuffer] }) ∧
    Status.error "UnknownCommandCode" ≠ Status.error "Some other error" := by
  refine ⟨?_, ?_, ?_, by decide⟩
  · intro h; simp [CliCommand, h]
  · intro h1 h2; simp [CliCommand, h1, h2]
  · intro h1 h2
    have h3 : ¬ (p.ParseCommandFromArgs args).exitCode > 0 := not_lt.mpr h2
    simp only [CliCommand, if_neg h1, if_neg h3]

/-- C5 instance: exit code zero with the unknown-command code at -666; the
captured buffers come back with their blanks and line ends. -/
theorem cliCommand_outcome_by_exit_code_witness :
    CliCommand (-666) (.ok (fixedParser 0)) ["help"] ["old"] =
      { status := .ok, retVal := [" out \n", " err \n"] } ∧
    CliCommand (-666) (.ok (fixedParser 1)) ["push"] ["old"] =
      { status := .error "Some other error", retVal := ["old"] } ∧
    CliCommand (-666) (.ok (fixedParser (-666))) ["bogus"] ["old"] =
      { status := .error "UnknownCommandCode", retVal := ["old"] } :=
  ⟨(cliCommand_outcome_by_exit_code (-666) (fixedParser 0) ["help"] ["old"]).2.2.1
      (by decide) (by decide),
   (cliCommand_outcome_by_exit_code (-666) (fixedParser 1) ["push"] ["old"]).2.1
      (by decide) (by decide),
   (cliCommand_outcome_by_exit_code (-666) (fixedParser (-666)) ["bogus"] ["old"]).1 (by decide)⟩

/-! ## Theorems: Connection Proxy -/

/-- Either some dial among the first five succeeds, and then there is a first
one, or all five fail. -/
theorem first_success_or_all_fail (dial : Nat → Except String Conn) :
    (∃ k c, k < 5 ∧ (∀ i, i < k → ∃ e, dial i = .error e) ∧ dial k = .ok c) ∨
    (∀ i, i < 5 → ∃ e, dial i = .error e) := by
  by_cases h : ∃ k, k < 5 ∧ ∃ c, dial k = .ok c
  · left
    classical
    have hk := Nat.find_spec h
    obtain ⟨hlt, c, hc⟩ := hk
    refine ⟨Nat.find h, c, hlt, ?_, hc⟩
    intro i hi
    have hmin := Nat.find_min h hi
    cases hd : dial i with
    | error e => exact ⟨e, rfl⟩
    | ok c2 => exact absurd ⟨lt_trans hi hlt, c2, hd⟩ hmin
  · right
    intro i hi
    cases hd : dial i with
    | error e => exact ⟨e, rfl⟩
    | ok c2 => exact absurd ⟨i, hi, c2, hd⟩ h

/-- The run of `pingCLI` when the dial of attempt `k` (counted from 0, below
5) is the first to succeed. -/
theorem pingCLI_first_success (dial : Nat → Except String Conn) (k : Nat) (c : Conn)
    (hk : k < 5) (hfail : ∀ i, i < k → ∃ e, dial i = .error e) (hok : dial k = .ok c) :
    pingCLI dial =
      (List.range k).flatMap (fun i => [PingEvent.Dial i, PingEvent.Sleep 200]) ++
        [PingEvent.Dial k, PingEvent.Close c] := by
  interval_cases k
  · simp [pingCLI, pingLoop, hok]
  · obtain ⟨e0, h0⟩ := hfail 0 (by norm_num)
    simp [pingCLI, pingLoop, hok, h0, List.range_succ]
  · obtain ⟨e0, h0⟩ := hfail 0 (by norm_num)
    obtain ⟨e1, h1⟩ := hfail 1 (by norm_num)
    simp [pingCLI, pingLoop, hok, h0, h1, List.range_succ]
  · obtain ⟨e0, h0⟩ := hfail 0 (by norm_num)
    obtain ⟨e1, h1⟩ := hfail 1 (by norm_num)
    obtain ⟨e2, h2⟩ := hfail 2 (by norm_num)
    simp [pingCLI, pingLoop, hok, h0, h1, h2, List.range_succ]
  · obtain ⟨e0, h0⟩ := hfail 0 (by norm_num)
    obtain ⟨e1, h1⟩ := hfail 1 (by norm_num)
    obtain ⟨e2, h2⟩ := hfail 2 (by norm_num)
    obtain ⟨e3, h3⟩ := hfail 3 (by norm_num)
    simp [pingCLI, pingLoop, hok, h0, h1, h2, h3, List.range_succ]

/-- The run of `pingCLI` when all five dials fail: the error printed is the
one of the fifth dial. -/
theorem pingCLI_all_fail (dial : Nat → Except String Conn)
    (hfail : ∀ i, i < 5 → ∃ e, dial i = .error e) :
    ∃ e, dial 4 = .error e ∧
      pingCLI dial =
        (List.range 5).flatMap (fun i => [PingEvent.Dial i, PingEvent.Sleep 200]) ++
          [PingEvent.Println e, PingEvent.Exit 1] := by
  obtain ⟨e0, h0⟩ := hfail 0 (by norm_num)
  obtain ⟨e1, h1⟩ := hfail 1 (by norm_num)
  obtain ⟨e2, h2⟩ := hfail 2 (by norm_num)
  obtain ⟨e3, h3⟩ := hfail 3 (by norm_num)
  obtain ⟨e4, h4⟩ := hfail 4 (by norm_num)
  refine ⟨e4, h4, ?_⟩
  simp [pingCLI, pingLoop, h0, h1, h2, h3, h4, List.range_succ]

/-- C8: the handshake ping.  If the dial of attempt `k` (counted from 0, so
position `k + 1`) is the first of the first five to succeed, `pingCLI` dials
`min 5 (k + 1)` times, pauses 200ms after each of the `k` failed dials and not
after the success, closes the connection of that dial once, and does not exit.
If all five dials fail it dials 5 times, pauses 5 times (1000ms in total),
closes nothing, prints the last error and exits with status 1.  It exits with
status 1 exactly when all five dials fail, and otherwise does not exit. -/
theorem pingCLI_retry_budget (dial : Nat → Except String Conn) :
    (∀ k c, k < 5 → (∀ i, i < k → ∃ e, dial i = .error e) → dial k = .ok c →
      pingCLI dial =
        (List.range k).flatMap (fun i => [PingEvent.Dial i, PingEvent.Sleep 200]) ++
          [PingEvent.Dial k, PingEvent.Close c] ∧
      attempts (pingCLI dial) = min 5 (k + 1) ∧
      pauses (pingCLI dial) = List.replicate k 200 ∧
      closed (pingCLI dial) = [c] ∧
      exits (pingCLI dial) = []) ∧
    ((∀ i, i < 5 → ∃ e, dial i = .error e) →
      (∃ e, dial 4 = .error e ∧
        pingCLI dial =
          (List.range 5).flatMap (fun i => [PingEvent.Dial i, PingEvent.Sleep 200]) ++
            [PingEvent.Println e, PingEvent.Exit 1]) ∧
      attempts (pingCLI dial) = 5 ∧
      pauses (pingCLI dial) = List.replicate 5 200 ∧
      (pauses (pingCLI dial)).sum = 1000 ∧
      closed (pingCLI dial) = [] ∧
      exits (pingCLI dial) = [1]) ∧
    (exits (pingCLI dial) = [1] ↔ ∀ i, i < 5 → ∃ e, dial i = .error e) ∧
    (exits (pingCLI dial) ≠ [1] → exits (pingCLI dial) = []) := by
  have hsucc : ∀ k c, k < 5 → (∀ i, i < k → ∃ e, dial i = .error e) → dial k = .ok c →
      pingCLI dial =
        (List.range k).flatMap (fun i => [PingEvent.Dial i, PingEvent.Sleep 200]) ++
          [PingEvent.Dial k, PingEvent.Close c] ∧
      attempts (pingCLI dial) = min 5 (k + 1) ∧
      pauses (pingCLI dial) = List.replicate k 200 ∧
      closed (pingCLI dial) = [c] ∧
      exits (pingCLI dial) = [] := by
    intro k c hk hfail hok
    have key := pingCLI_first_success dial k c hk hfail hok
    refine ⟨key, ?_, ?_, ?_, ?_⟩ <;> rw [key] <;> interval_cases k <;>
      simp [attempts, pauses, closed, exits, List.range_succ, List.replicate]
  have hfailAll : (∀ i, i < 5 → ∃ e, dial i = .error e) →
      (∃ e, dial 4 = .error e ∧
        pingCLI dial =
          (List.range 5).flatMap (fun i => [PingEvent.Dial i, PingEvent.Sleep 200]) ++
            [PingEvent.Println e, PingEvent.Exit 1]) ∧
      attempts (pingCLI dial) = 5 ∧
      pauses (pingCLI dial) = List.replicate 5 200 ∧
      (pauses (pingCLI dial)).sum = 1000 ∧
      closed (pingCLI dial) = [] ∧
      exits (pingCLI dial) = [1] := by
    intro hfail
    obtain ⟨e, he, key⟩ := pingCLI_all_fail dial hfail
    refine ⟨⟨e, he, key⟩, ?_, ?_, ?_, ?_, ?_⟩ <;> rw [key] <;>
      simp [attempts, pauses, closed, exits, List.range_succ, List.replicate]
  refine ⟨hsucc, hfailAll, ?_, ?_⟩
  · constructor
    · intro hex
      rcases first_success_or_all_fail dial with ⟨k, c, hk, hf, hok⟩ | hall
      · have := (hsucc k c hk hf hok).2.2.2.2
        rw [this] at hex
        exact absurd hex (by simp)
      · exact hall
    · intro hall
      exact (hfailAll hall).2.2.2.2.2
  · intro hne
    rcases first_success_or_all_fail dial with ⟨k, c, hk, hf, hok⟩ | hall
    · exact (hsucc k c hk hf hok).2.2.2.2
    · exact absurd (hfailAll hall).2.2.2.2.2 hne

/-- C8 instance: a listener that comes up before the third dial (three dials,
two pauses, one close, no exit) and no listener at all (five dials, five
pauses, exit 1). -/
theorem pingCLI_retry_budget_witness :
    (attempts (pingCLI lateListener) = min 5 (2 + 1) ∧
      pauses (pingCLI lateListener) = List.replicate 2 200 ∧
      closed (pingCLI lateListener) = [7] ∧
      exits (pingCLI lateListener) = []) ∧
    (attempts (pingCLI noListener) = 5 ∧
      (pauses (pingCLI noListener)).sum = 1000 ∧
      exits (pingCLI noListener) = [1]) :=
  ⟨((pingCLI_retry_budget lateListener).1 2 7 (by decide)
      (fun i hi => ⟨"connection refused", by simp [lateListener, hi]⟩) rfl).2,
   ⟨((pingCLI_retry_budget noListener).2.1 (fun _ _ => ⟨"connection refused", rfl⟩)).2.1,
    ((pingCLI_retry_budget noListener).2.1 (fun _ _ => ⟨"connection refused", rfl⟩)).2.2.2.1,
    ((pingCLI_retry_budget noListener).2.1 (fun _ _ => ⟨"connection refused", rfl⟩)).2.2.2.2.2⟩⟩

/-- C9: a call through `withClientDo`.  If the dial fails, the dial error is
returned, the callback is not invoked, the caller state is untouched and no
connection is opened.  If the dial succeeds, the callback is invoked once on
that connection, the connection is closed once after the callback, and the
returned error and the caller state are exactly those of the callback.  On
both paths the open connections after the call are those before it;
`ApiEndpoint`, built on it, inherits this. -/
theorem withClientDo_scopes_connection {σ : Type} (dial : Except String Conn)
    (f : Conn → σ → σ × Option String) (state : σ) (openConns : List Conn)
    (Call : Conn → String → String → String → String × Option String) :
    (∀ e, dial = .error e →
      (withClientDo dial f state openConns).err = some e ∧
      (withClientDo dial f state openConns).state = state ∧
      (withClientDo dial f state openConns).trace = [ClientEvent.Dial]) ∧
    (∀ client, dial = .ok client →
      (withClientDo dial f state openConns).err = (f client state).2 ∧
      (withClientDo dial f state openConns).state = (f client state).1 ∧
      (withClientDo dial f state openConns).trace =
        [ClientEvent.Dial, ClientEvent.Invoke client, ClientEvent.Close client]) ∧
    (withClientDo dial f state openConns).openConns = openConns ∧
    (withClientDo dial f state openConns).openConns.length = openConns.length ∧
    (ApiEndpoint dial Call openConns).2.openConns = openConns := by
  cases dial with
  | error e => simp [withClientDo, ApiEndpoint]
  | ok client => simp [withClientDo, ApiEndpoint]

/-- C9 instance: a refused dial, a successful call and a call whose remote
method fails, each with connection 3 already open. -/
theorem withClientDo_scopes_connection_witness :
    ((withClientDo (.error "connection refused")
        (fun client reply => sampleCall client "CliRpcCmd.ApiEndpoint" "" reply) "" [3]).err =
        some "connection refused" ∧
      (withClientDo (.error "connection refused")
        (fun client reply => sampleCall client "CliRpcCmd.ApiEndpoint" "" reply) "" [3]).state = "" ∧
      (withClientDo (.error "connection refused")
        (fun client reply => sampleCall client "CliRpcCmd.ApiEndpoint" "" reply) "" [3]).trace =
        [ClientEvent.Dial]) ∧
    ((withClientDo (.ok 4)
        (fun client reply => sampleCall client "CliRpcCmd.Nope" "" reply) "" [3]).err =
        (sampleCall 4 "CliRpcCmd.Nope" "" "").2 ∧
      (withClientDo (.ok 4)
        (fun client reply => sampleCall client "CliRpcCmd.Nope" "" reply) "" [3]).state =
        (sampleCall 4 "CliRpcCmd.Nope" "" "").1 ∧
      (withClientDo (.ok 4)
        (fun client reply => sampleCall client "CliRpcCmd.Nope" "" reply) "" [3]).trace =
        [ClientEvent.Dial, ClientEvent.Invoke 4, ClientEvent.Close 4]) ∧
    (ApiEndpoint (.ok 4) sampleCall [3]).2.openConns = [3] :=
  ⟨(withClientDo_scopes_connection (.error "connection refused")
      (fun client reply => sampleCall client "CliRpcCmd.ApiEndpoint" "" reply) "" [3]
      sampleCall).1 "connection refused" rfl,
   (withClientDo_scopes_connection (.ok 4)
      (fun client reply => sampleCall client "CliRpcCmd.Nope" "" reply) "" [3] sampleCall).2.1 4 rfl,
   (withClientDo_scopes_connection (.ok 4)
      (fun client reply => sampleCall client "CliRpcCmd.ApiEndpoint" "" reply) "" [3]
      sampleCall).2.2.2.2⟩

end CliPlugin
